import Mathlib

/-!
Shallow embedding of the mock booking tools of the Saudia reservation agent
(`src/main.py`, class `SaudiaReservationAgent`), together with theorems
checking the repository specification against them.

Modelling conventions:
* Python `str` is Lean `String`; Python `int` is Lean `Int`.
* A Python `float` argument is only ever interpolated into an f-string and
  echoed back, never computed with; it is modelled by its decimal rendering
  (the string `str(x)` produces), carried in the one-field structure `PyFloatLit`.
* `Optional[str]` is `Option String`; Python truthiness of such a value
  (`if s:` / `s or default`) treats both `None` and `""` as false.
* The built-in `hash` is deterministic within one process run but otherwise
  unspecified; it is a parameter `pyHash : String → Int` of the tools that
  use it.  Python `x % m` for positive `m` is `Int.emod`, always in `[0, m)`.
* Each tool returns a Python dict literal, modelled as an association list
  `List (String × PyVal)` in the literal's key order.
* The tool bodies are total Lean functions: the source performs only
  slicing, case mapping, hashing and concatenation, none of which can raise.
-/

namespace SaudiaAgent

/-- A value occurring in a tool's returned dict. -/
inductive PyVal where
  | str : String → PyVal
  | int : Int → PyVal
  | float : String → PyVal
  | strList : List String → PyVal
  | none : PyVal
deriving DecidableEq, Repr

/-- A Python float literal, modelled by its decimal rendering. -/
structure PyFloatLit where
  render : String
deriving DecidableEq, Repr

/-- A Python dict with string keys, in literal order. -/
abbrev PyDict := List (String × PyVal)

/-- Dict lookup (Python `d[k]`, as far as the claims need it). -/
def dGet : PyDict → String → Option PyVal
  | [], _ => Option.none
  | (k', v) :: rest, k => if k' == k then some v else dGet rest k

/-- The `summary` entry of a tool result (every tool returns one). -/
def summaryOf (d : PyDict) : String :=
  match dGet d "summary" with
  | some (PyVal.str s) => s
  | _ => ""

/-- Python `s[:n]`: the first `n` characters (all of `s` when it is shorter). -/
def pySliceTo (s : String) (n : Nat) : String := String.mk (s.toList.take n)

/-- Python `s.upper()`: every character uppercased. -/
def pyUpper (s : String) : String := String.mk (s.toList.map Char.toUpper)

/-- Python `s[-n:]`: the last `n` characters (all of `s` when it is shorter). -/
def takeLast (s : String) (n : Nat) : String :=
  String.mk (s.toList.drop (s.toList.length - n))

/-- Python "s.replace(colon, empty)": drop every colon. -/
def removeColons (s : String) : String := String.mk (s.toList.filter (fun c => c != ':'))

/-- Python `s.capitalize()`: first character uppercased, the rest lowercased. -/
def pyCapitalize (s : String) : String :=
  match s.toList with
  | [] => ""
  | c :: cs => String.mk (c.toUpper :: cs.map Char.toLower)

/-- Python `v or d` for `v : Optional[str]`: `None` and `""` give the default. -/
def pyOrStr (v : Option String) (d : String) : String :=
  match v with
  | Option.none => d
  | some s => if s == "" then d else s

/-- Python truthiness of an `Optional[str]`: `None` and `""` are false. -/
def truthyStr : Option String → Bool
  | Option.none => false
  | some s => s != ""

/-- The dict value echoing an `Optional[str]` argument. -/
def optVal : Option String → PyVal
  | Option.none => PyVal.none
  | some s => PyVal.str s

/-- Python `x % m` for `m > 0`: the representative in `[0, m)`. -/
def pyMod (i : Int) (m : Nat) : Nat := (i % (m : Int)).toNat

/-- Zero-pad a numeral on the left to width `w` (Python `:0wd` on a nonnegative int). -/
def padZeros (w : Nat) (s : String) : String :=
  String.mk (List.replicate (w - s.length) '0') ++ s

/-- Python f-string field for a hash: reduced mod `m`, zero-padded to width `w`. -/
def hashField (h : Int) (m w : Nat) : String := padZeros w (Nat.repr (pyMod h m))

/-- The single-quote character used by Python list repr. -/
def sq : String := String.singleton (Char.ofNat 39)

/-- Python `str(booking_ids)` for a list of plain strings: single-quoted,
comma-separated, bracketed (quote-escaping for exotic strings elided; every
theorem touching this value quantifies over the hash function applied to it). -/
def pyReprStrList (xs : List String) : String :=
  "[" ++ String.intercalate ", " (xs.map (fun s => sq ++ s ++ sq)) ++ "]"

/-- A naive UTC clock reading (`datetime.datetime.utcnow()`). -/
structure PyDateTime where
  year : Nat
  month : Nat
  day : Nat
  hour : Nat
  minute : Nat
  second : Nat
  microsecond : Nat
deriving DecidableEq, Repr

/-- The date part `YYYY-MM-DD` of `datetime.isoformat()`. -/
def isoDate (t : PyDateTime) : String :=
  padZeros 4 (Nat.repr t.year) ++ "-" ++ padZeros 2 (Nat.repr t.month) ++ "-" ++
    padZeros 2 (Nat.repr t.day)

/-- The time part `HH:MM:SS[.ffffff]` of `datetime.isoformat()`
(the microsecond field is omitted when it is zero). -/
def isoTime (t : PyDateTime) : String :=
  padZeros 2 (Nat.repr t.hour) ++ ":" ++ padZeros 2 (Nat.repr t.minute) ++ ":" ++
    padZeros 2 (Nat.repr t.second) ++
    (if t.microsecond == 0 then "" else "." ++ padZeros 6 (Nat.repr t.microsecond))

/-- Python `datetime.isoformat()`: date, the separator `T`, time. -/
def isoformat (t : PyDateTime) : String := isoDate t ++ "T" ++ isoTime t

/-- `SaudiaReservationAgent.current_time` (src/main.py:58-63): returns
`datetime.datetime.utcnow().isoformat()` for the ambient clock reading. -/
def current_time (now : PyDateTime) : String := isoformat now

/-- The flight id of `book_flight` (src/main.py:77). -/
def flightId (origin destination : String) : String :=
  "FL-" ++ pyUpper (pySliceTo origin 3) ++ pyUpper (pySliceTo destination 3) ++ "123"

/-- The fixed first sentence of the `book_flight` summary (src/main.py:78-81). -/
def flightBase (origin destination departure_date : String)
    (passenger_count : Int) (class_type : String) : String :=
  "Flight booked from " ++ origin ++ " to " ++ destination ++ " on " ++ departure_date ++
    " for " ++ toString passenger_count ++ " passenger(s) in " ++ class_type ++ " class. "

/-- The conditional return sentence of the `book_flight` summary (src/main.py:82-83). -/
def flightReturnPart (return_date : Option String) : String :=
  match return_date with
  | some r => if r != "" then "Return flight on " ++ r ++ ". " else ""
  | Option.none => ""

/-- The closing sentence of the `book_flight` summary (src/main.py:84). -/
def flightFinal (origin destination : String) : String :=
  "Booking ID is " ++ flightId origin destination ++ "."

/-- The full `book_flight` summary, assembled exactly as the source appends it. -/
def flightSummary (origin destination departure_date : String)
    (return_date : Option String) (passenger_count : Int) (class_type : String) : String :=
  flightBase origin destination departure_date passenger_count class_type ++
    flightReturnPart return_date ++ flightFinal origin destination

/-- `SaudiaReservationAgent.book_flight` (src/main.py:66-90).  Defaults in the
source: `return_date=None`, `passenger_count=1`, `class_type="economy"`. -/
def book_flight (origin destination departure_date : String)
    (return_date : Option String) (passenger_count : Int)
    (class_type : Option String) : PyDict :=
  let ct := pyOrStr class_type "economy"
  [("flight_id", PyVal.str (flightId origin destination)),
   ("status", PyVal.str "confirmed"),
   ("summary", PyVal.str
      (flightSummary origin destination departure_date return_date passenger_count ct))]

/-- The hotel id of `book_hotel` (src/main.py:103). -/
def hotelId (city : String) : String := "HT-" ++ pyUpper (pySliceTo city 3) ++ "567"

/-- The `book_hotel` summary (src/main.py:104-107). -/
def hotelSummary (city check_in_date check_out_date : String)
    (guests : Int) (hotel_type : String) : String :=
  pyCapitalize hotel_type ++ " hotel booked in " ++ city ++ " from " ++ check_in_date ++
    " to " ++ check_out_date ++ " for " ++ toString guests ++ " guest(s). Booking ID is " ++
    hotelId city ++ "."

/-- `SaudiaReservationAgent.book_hotel` (src/main.py:93-113).  Defaults in the
source: `guests=1`, `hotel_type="3-star"`. -/
def book_hotel (city check_in_date check_out_date : String)
    (guests : Int) (hotel_type : Option String) : PyDict :=
  let ht := pyOrStr hotel_type "3-star"
  [("hotel_id", PyVal.str (hotelId city)),
   ("status", PyVal.str "confirmed"),
   ("summary", PyVal.str (hotelSummary city check_in_date check_out_date guests ht))]

/-- The cab id of `book_cab` (src/main.py:127): city sliced and uppercased,
then the last four characters of the pickup time with colons removed. -/
def cabId (city pickup_time : String) : String :=
  "CB-" ++ pyUpper (pySliceTo city 3) ++ removeColons (takeLast pickup_time 4)

/-- The `book_cab` summary (src/main.py:128-131). -/
def cabSummary (city pickup_location dropoff_location pickup_time : String)
    (passengers : Int) (cab_type : String) : String :=
  pyCapitalize cab_type ++ " cab booked in " ++ city ++ " from " ++ pickup_location ++
    " to " ++ dropoff_location ++ " at " ++ pickup_time ++ " for " ++ toString passengers ++
    " passenger(s). Booking ID is " ++ cabId city pickup_time ++ "."

/-- `SaudiaReservationAgent.book_cab` (src/main.py:116-137).  Defaults in the
source: `passengers=1`, `cab_type="standard"`. -/
def book_cab (city pickup_location dropoff_location pickup_time : String)
    (passengers : Int) (cab_type : Option String) : PyDict :=
  let ct := pyOrStr cab_type "standard"
  [("cab_id", PyVal.str (cabId city pickup_time)),
   ("status", PyVal.str "confirmed"),
   ("summary", PyVal.str
      (cabSummary city pickup_location dropoff_location pickup_time passengers ct))]

/-- The meal preference id of `select_meal` (src/main.py:149): last three
characters of the flight id, then `hash(meal_type) % 1000` zero-padded to 3. -/
def mealPrefId (pyHash : String → Int) (flight_id meal_type : String) : String :=
  "MP-" ++ takeLast flight_id 3 ++ hashField (pyHash meal_type) 1000 3

/-- The `select_meal` summary (src/main.py:151-162), assembled exactly as the
source appends its conditional pieces. -/
def mealSummary (pyHash : String → Int) (flight_id meal_type : String)
    (dietary_restrictions special_requests passenger_name : Option String) : String :=
  "Meal preference set to " ++
    (meal_type ++ " meal" ++
      (if truthyStr dietary_restrictions then
        " (" ++ dietary_restrictions.getD "" ++ ")" else "")) ++
    " for flight " ++ flight_id ++
    (if truthyStr passenger_name then " for " ++ passenger_name.getD "" else "") ++
    ". Preference ID: " ++ mealPrefId pyHash flight_id meal_type ++ "." ++
    (if truthyStr special_requests then
      " Special request noted: " ++ special_requests.getD "" ++ "." else "")

/-- `SaudiaReservationAgent.select_meal` (src/main.py:140-173).  Defaults in
the source: the three optional arguments are `None`. -/
def select_meal (pyHash : String → Int) (flight_id meal_type : String)
    (dietary_restrictions special_requests passenger_name : Option String) : PyDict :=
  [("meal_preference_id", PyVal.str (mealPrefId pyHash flight_id meal_type)),
   ("flight_id", PyVal.str flight_id),
   ("meal_type", PyVal.str meal_type),
   ("dietary_restrictions", optVal dietary_restrictions),
   ("special_requests", optVal special_requests),
   ("status", PyVal.str "confirmed"),
   ("summary", PyVal.str
      (mealSummary pyHash flight_id meal_type dietary_restrictions special_requests
        passenger_name))]

/-- The payment id of `process_payment` (src/main.py:186):
`hash(str(booking_ids)) % 10000` zero-padded to 4. -/
def paymentId (pyHash : String → Int) (booking_ids : List String) : String :=
  "PY-" ++ hashField (pyHash (pyReprStrList booking_ids)) 10000 4

/-- The `process_payment` summary (src/main.py:189-198), with the optional
customer clause appended exactly as the source builds it. -/
def paymentSummary (pyHash : String → Int) (booking_ids : List String)
    (payment_method : String) (amount : PyFloatLit) (currency : String)
    (customer_name email : Option String) : String :=
  "Payment of " ++ amount.render ++ " " ++ currency ++ " processed successfully via " ++
    payment_method ++ " for booking(s): " ++ String.intercalate ", " booking_ids ++
    ". Payment ID: " ++ paymentId pyHash booking_ids ++ "." ++
    (if truthyStr customer_name then
      " for " ++ customer_name.getD "" ++
        (if truthyStr email then " (" ++ email.getD "" ++ ")" else "")
     else "")

/-- `SaudiaReservationAgent.process_payment` (src/main.py:176-208).  Defaults
in the source: `currency="SAR"`, `customer_name=None`, `email=None`. -/
def process_payment (pyHash : String → Int) (booking_ids : List String)
    (payment_method : String) (amount : PyFloatLit) (currency : String)
    (customer_name email : Option String) : PyDict :=
  [("payment_id", PyVal.str (paymentId pyHash booking_ids)),
   ("status", PyVal.str "confirmed"),
   ("amount", PyVal.float amount.render),
   ("currency", PyVal.str currency),
   ("booking_ids", PyVal.strList booking_ids),
   ("summary", PyVal.str
      (paymentSummary pyHash booking_ids payment_method amount currency
        customer_name email))]

/-- Does the character list start with the pattern `p`? -/
def charsStart : List Char → List Char → Bool
  | [], _ => true
  | _ :: _, [] => false
  | a :: as, b :: bs => a == b && charsStart as bs

/-- Does the character list contain the pattern `p` as a contiguous run? -/
def charsContain (p : List Char) : List Char → Bool
  | [] => charsStart p []
  | c :: cs => charsStart p (c :: cs) || charsContain p (cs)

/-- `pat` is a leading piece of `s` (Python `s.startswith(pat)`). -/
def strStarts (s pat : String) : Bool := charsStart pat.toList s.toList

/-- `pat` occurs contiguously in `s` (Python `pat in s`). -/
def strContains (s pat : String) : Bool := charsContain pat.toList s.toList

lemma data_append (a b : String) : (a ++ b).data = a.data ++ b.data := by
  cases a; cases b; rfl

lemma charsStart_self_append (p rest : List Char) : charsStart p (p ++ rest) = true := by
  induction p with
  | nil => rfl
  | cons a as ih => simp [charsStart, ih]

lemma charsStart_extend {p l : List Char} (m : List Char) (h : charsStart p l = true) :
    charsStart p (l ++ m) = true := by
  induction p generalizing l with
  | nil => rfl
  | cons a as ih =>
    cases l with
    | nil => simp [charsStart] at h
    | cons b bs =>
      simp only [charsStart, Bool.and_eq_true] at h ⊢
      exact ⟨h.1, ih h.2⟩

lemma charsContain_of_start {p l : List Char} (h : charsStart p l = true) :
    charsContain p l = true := by
  cases l with
  | nil => simpa [charsContain] using h
  | cons c cs => simp [charsContain, h]

lemma charsContain_nil (l : List Char) : charsContain [] l = true := by
  cases l <;> simp [charsContain, charsStart]

lemma charsContain_append_right {p b : List Char} (a : List Char)
    (h : charsContain p b = true) : charsContain p (a ++ b) = true := by
  induction a with
  | nil => simpa using h
  | cons c cs ih => simp [charsContain, ih]

lemma charsContain_append_left {p a : List Char} (b : List Char)
    (h : charsContain p a = true) : charsContain p (a ++ b) = true := by
  induction a with
  | nil =>
    cases p with
    | nil => exact charsContain_nil ([] ++ b)
    | cons q qs => simp [charsContain, charsStart] at h
  | cons c cs ih =>
    simp only [charsContain, Bool.or_eq_true] at h
    rcases h with h | h
    · exact charsContain_of_start (charsStart_extend b h)
    · simpa [charsContain] using Or.inr (ih h)

/-- A string of the shape `a ++ s ++ b` contains `s`. -/
lemma strContains_sandwich (a s b : String) : strContains (a ++ s ++ b) s = true := by
  have hd : (a ++ s ++ b).data = a.data ++ (s.data ++ b.data) := by
    rw [data_append, data_append, List.append_assoc]
  simp only [strContains, String.toList, hd]
  exact charsContain_append_right a.data
    (charsContain_of_start (charsStart_self_append s.data b.data))

/-- A string of the shape `p ++ rest` starts with `p`. -/
lemma strStarts_of_append (p rest : String) : strStarts (p ++ rest) p = true := by
  simp only [strStarts, String.toList, data_append]
  exact charsStart_self_append p.data rest.data

lemma str_assoc (a b c : String) : (a ++ b) ++ c = a ++ (b ++ c) := by
  cases a with
  | mk la =>
    cases b with
    | mk lb =>
      cases c with
      | mk lc =>
        show String.mk ((la ++ lb) ++ lc) = String.mk (la ++ (lb ++ lc))
        rw [List.append_assoc]

lemma str_append_empty (a : String) : a ++ "" = a := by
  cases a with
  | mk la =>
    show String.mk (la ++ []) = String.mk la
    rw [List.append_nil]

/-- `book_flight` depends on `return_date` only through `flightReturnPart`. -/
lemma book_flight_return_congr {rd1 rd2 : Option String}
    (h : flightReturnPart rd1 = flightReturnPart rd2)
    (o dst dd : String) (pc : Int) (ct : Option String) :
    book_flight o dst dd rd1 pc ct = book_flight o dst dd rd2 pc ct := by
  simp only [book_flight, flightSummary, h]

/-- The `flight_id` entry of a `book_flight` result. -/
lemma dGet_book_flight_id (o dst dd : String) (rd : Option String) (pc : Int)
    (ct : Option String) :
    dGet (book_flight o dst dd rd pc ct) "flight_id" =
      some (PyVal.str (flightId o dst)) := rfl

/-- Python `x % m` lands in `[0, m)` for positive `m`, whatever the sign of `x`. -/
lemma pyMod_lt (i : Int) (m : Nat) (hm : 0 < m) : pyMod i m < m := by
  unfold pyMod
  have h1 : (0 : Int) < (m : Int) := by exact_mod_cast hm
  have h2 := Int.emod_nonneg i (ne_of_gt h1)
  have h3 := Int.emod_lt_of_pos i h1
  omega

/-- C1: every tool of the Saudia agent is a total function of its inputs (the
embedding of each tool is a total Lean function, mirroring that the source
only slices, cases, hashes and concatenates), and for every input — empty
strings, empty lists and negative numbers included — the returned record's
`status` entry is the literal `"confirmed"`; the dict literals carry no other
status value. -/
theorem claim_c1_status_always_confirmed (pyHash : String → Int)
    (o dst dd ci co pl dl pt fid mt pm cur : String)
    (rd ct ht cbt dr sr pn cn em : Option String)
    (pc g ps : Int) (ids : List String) (amt : PyFloatLit) :
    dGet (book_flight o dst dd rd pc ct) "status" = some (PyVal.str "confirmed") ∧
    dGet (book_hotel ci dd co g ht) "status" = some (PyVal.str "confirmed") ∧
    dGet (book_cab ci pl dl pt ps cbt) "status" = some (PyVal.str "confirmed") ∧
    dGet (select_meal pyHash fid mt dr sr pn) "status" = some (PyVal.str "confirmed") ∧
    dGet (process_payment pyHash ids pm amt cur cn em) "status" =
      some (PyVal.str "confirmed") :=
  ⟨rfl, rfl, rfl, rfl, rfl⟩

/-- C2: `book_flight("NYC","LAX","2025-06-01")` with the default passenger
count 1 and class `"economy"` yields the flight id `"FL-NYCLAX123"` — which is
`"FL-"` ++ the first three uppercased letters of origin and destination ++
`"123"` — and a summary containing `"NYC"`, `"LAX"`, `"2025-06-01"`,
`"1 passenger(s)"` and `"economy class"`. -/
theorem claim_c2_book_flight_nyc_lax :
    dGet (book_flight "NYC" "LAX" "2025-06-01" Option.none 1 (some "economy")) "flight_id" =
      some (PyVal.str "FL-NYCLAX123") ∧
    "FL-NYCLAX123" =
      "FL-" ++ pyUpper (pySliceTo "NYC" 3) ++ pyUpper (pySliceTo "LAX" 3) ++ "123" ∧
    strContains (summaryOf (book_flight "NYC" "LAX" "2025-06-01" Option.none 1
      (some "economy"))) "NYC" = true ∧
    strContains (summaryOf (book_flight "NYC" "LAX" "2025-06-01" Option.none 1
      (some "economy"))) "LAX" = true ∧
    strContains (summaryOf (book_flight "NYC" "LAX" "2025-06-01" Option.none 1
      (some "economy"))) "2025-06-01" = true ∧
    strContains (summaryOf (book_flight "NYC" "LAX" "2025-06-01" Option.none 1
      (some "economy"))) "1 passenger(s)" = true ∧
    strContains (summaryOf (book_flight "NYC" "LAX" "2025-06-01" Option.none 1
      (some "economy"))) "economy class" = true :=
  ⟨rfl, rfl, rfl, rfl, rfl, rfl, rfl⟩

/-- C3: within one process run — i.e. for one fixed hash function `pyHash` —
two calls of any tool with identical arguments return the identical identifier
and the identical summary. -/
theorem claim_c3_idempotent_per_run (pyHash : String → Int)
    (o dst dd ci co pl dl pt fid mt pm cur : String)
    (rd ct ht cbt dr sr pn cn em : Option String)
    (pc g ps : Int) (ids : List String) (amt : PyFloatLit) :
    (dGet (book_flight o dst dd rd pc ct) "flight_id" =
        dGet (book_flight o dst dd rd pc ct) "flight_id" ∧
      summaryOf (book_flight o dst dd rd pc ct) =
        summaryOf (book_flight o dst dd rd pc ct)) ∧
    (dGet (book_hotel ci dd co g ht) "hotel_id" =
        dGet (book_hotel ci dd co g ht) "hotel_id" ∧
      summaryOf (book_hotel ci dd co g ht) = summaryOf (book_hotel ci dd co g ht)) ∧
    (dGet (book_cab ci pl dl pt ps cbt) "cab_id" =
        dGet (book_cab ci pl dl pt ps cbt) "cab_id" ∧
      summaryOf (book_cab ci pl dl pt ps cbt) = summaryOf (book_cab ci pl dl pt ps cbt)) ∧
    (dGet (select_meal pyHash fid mt dr sr pn) "meal_preference_id" =
        dGet (select_meal pyHash fid mt dr sr pn) "meal_preference_id" ∧
      summaryOf (select_meal pyHash fid mt dr sr pn) =
        summaryOf (select_meal pyHash fid mt dr sr pn)) ∧
    (dGet (process_payment pyHash ids pm amt cur cn em) "payment_id" =
        dGet (process_payment pyHash ids pm amt cur cn em) "payment_id" ∧
      summaryOf (process_payment pyHash ids pm amt cur cn em) =
        summaryOf (process_payment pyHash ids pm amt cur cn em)) :=
  ⟨⟨rfl, rfl⟩, ⟨rfl, rfl⟩, ⟨rfl, rfl⟩, ⟨rfl, rfl⟩, ⟨rfl, rfl⟩⟩

/-- C4: `book_hotel("Paris","2025-06-01","2025-06-05",guests=2)` yields the
hotel id `"HT-PAR567"` — `"HT-"` ++ the first three uppercased letters of the
city ++ `"567"` — and a summary containing both dates and `"2 guest(s)"`. -/
theorem claim_c4_book_hotel_paris :
    dGet (book_hotel "Paris" "2025-06-01" "2025-06-05" 2 (some "3-star")) "hotel_id" =
      some (PyVal.str "HT-PAR567") ∧
    "HT-PAR567" = "HT-" ++ pyUpper (pySliceTo "Paris" 3) ++ "567" ∧
    strContains (summaryOf (book_hotel "Paris" "2025-06-01" "2025-06-05" 2
      (some "3-star"))) "2025-06-01" = true ∧
    strContains (summaryOf (book_hotel "Paris" "2025-06-01" "2025-06-05" 2
      (some "3-star"))) "2025-06-05" = true ∧
    strContains (summaryOf (book_hotel "Paris" "2025-06-01" "2025-06-05" 2
      (some "3-star"))) "2 guest(s)" = true :=
  ⟨rfl, rfl, rfl, rfl, rfl⟩

/-- C5: `process_payment(["FL-1","HT-1"],"card",100.0,"USD")` yields a summary
listing the two booking ids joined by `", "` and containing `"100.0 USD"`,
whatever hash function the run uses for the payment id. -/
theorem claim_c5_process_payment_usd (pyHash : String → Int) :
    strContains (summaryOf (process_payment pyHash ["FL-1", "HT-1"] "card"
      (PyFloatLit.mk "100.0") "USD" Option.none Option.none)) "FL-1, HT-1" = true ∧
    strContains (summaryOf (process_payment pyHash ["FL-1", "HT-1"] "card"
      (PyFloatLit.mk "100.0") "USD" Option.none Option.none)) "100.0 USD" = true :=
  ⟨rfl, rfl⟩

/-- C6: for every input, each tool's identifier is its fixed prefix (`"FL-"`,
`"HT-"`, `"CB-"`, `"MP-"`, `"PY-"`) followed by truncated (for text,
uppercased) input text or a hash reduced modulo 1000 or 10000 and zero-padded;
the identifiers returned in the dicts are exactly these, and each starts with
its tool's prefix; the reduced hashes lie below their modulus. -/
theorem claim_c6_identifier_shape (pyHash : String → Int) (o dst ci pl dl pt fid mt pm cur : String)
    (rd ct ht cbt dr sr pn cn em : Option String) (dd co : String)
    (pc g ps : Int) (ids : List String) (amt : PyFloatLit) :
    (flightId o dst =
        "FL-" ++ pyUpper (pySliceTo o 3) ++ pyUpper (pySliceTo dst 3) ++ "123" ∧
      dGet (book_flight o dst dd rd pc ct) "flight_id" = some (PyVal.str (flightId o dst)) ∧
      strStarts (flightId o dst) "FL-" = true) ∧
    (hotelId ci = "HT-" ++ pyUpper (pySliceTo ci 3) ++ "567" ∧
      dGet (book_hotel ci dd co g ht) "hotel_id" = some (PyVal.str (hotelId ci)) ∧
      strStarts (hotelId ci) "HT-" = true) ∧
    (cabId ci pt = "CB-" ++ pyUpper (pySliceTo ci 3) ++ removeColons (takeLast pt 4) ∧
      dGet (book_cab ci pl dl pt ps cbt) "cab_id" = some (PyVal.str (cabId ci pt)) ∧
      strStarts (cabId ci pt) "CB-" = true) ∧
    (mealPrefId pyHash fid mt =
        "MP-" ++ takeLast fid 3 ++ padZeros 3 (Nat.repr (pyMod (pyHash mt) 1000)) ∧
      dGet (select_meal pyHash fid mt dr sr pn) "meal_preference_id" =
        some (PyVal.str (mealPrefId pyHash fid mt)) ∧
      strStarts (mealPrefId pyHash fid mt) "MP-" = true ∧
      pyMod (pyHash mt) 1000 < 1000) ∧
    (paymentId pyHash ids =
        "PY-" ++ padZeros 4 (Nat.repr (pyMod (pyHash (pyReprStrList ids)) 10000)) ∧
      dGet (process_payment pyHash ids pm amt cur cn em) "payment_id" =
        some (PyVal.str (paymentId pyHash ids)) ∧
      strStarts (paymentId pyHash ids) "PY-" = true ∧
      pyMod (pyHash (pyReprStrList ids)) 10000 < 10000) :=
  ⟨⟨rfl, rfl, rfl⟩, ⟨rfl, rfl, rfl⟩, ⟨rfl, rfl, rfl⟩,
    ⟨rfl, rfl, rfl, pyMod_lt _ 1000 (by decide)⟩,
    ⟨rfl, rfl, rfl, pyMod_lt _ 10000 (by decide)⟩⟩

/-- C7 counterexample: the claim says every tool result echoes the call's
input fields (city, dates, passenger counts) besides identifier, status and
summary, but the `book_flight` dict for a concrete call carries exactly the
keys `flight_id`, `status`, `summary` and nothing echoing the origin, the
departure date, or the passenger count as a field of its own. -/
theorem claim_c7_counterexample :
    (book_flight "NYC" "LAX" "2025-06-01" Option.none 1 (some "economy")).map Prod.fst =
      ["flight_id", "status", "summary"] ∧
    dGet (book_flight "NYC" "LAX" "2025-06-01" Option.none 1 (some "economy")) "origin" =
      Option.none ∧
    dGet (book_flight "NYC" "LAX" "2025-06-01" Option.none 1 (some "economy"))
      "departure_date" = Option.none ∧
    dGet (book_flight "NYC" "LAX" "2025-06-01" Option.none 1 (some "economy"))
      "passenger_count" = Option.none :=
  ⟨rfl, rfl, rfl, rfl⟩

/-- C7 amended: `select_meal` and `process_payment` echo input fields in their
result records (flight id, meal type, dietary restrictions, special requests;
amount, currency, booking ids), while `book_flight`, `book_hotel` and
`book_cab` return only the generated identifier, the `"confirmed"` status and
the summary — their inputs appear only inside the summary text. -/
theorem claim_c7_amended_echo_fields (pyHash : String → Int)
    (o dst dd ci co pl dl pt fid mt pm cur : String)
    (rd ct ht cbt dr sr pn cn em : Option String)
    (pc g ps : Int) (ids : List String) (amt : PyFloatLit) :
    (book_flight o dst dd rd pc ct).map Prod.fst = ["flight_id", "status", "summary"] ∧
    (book_hotel ci dd co g ht).map Prod.fst = ["hotel_id", "status", "summary"] ∧
    (book_cab ci pl dl pt ps cbt).map Prod.fst = ["cab_id", "status", "summary"] ∧
    dGet (select_meal pyHash fid mt dr sr pn) "flight_id" = some (PyVal.str fid) ∧
    dGet (select_meal pyHash fid mt dr sr pn) "meal_type" = some (PyVal.str mt) ∧
    dGet (select_meal pyHash fid mt dr sr pn) "dietary_restrictions" = some (optVal dr) ∧
    dGet (select_meal pyHash fid mt dr sr pn) "special_requests" = some (optVal sr) ∧
    dGet (process_payment pyHash ids pm amt cur cn em) "amount" =
      some (PyVal.float amt.render) ∧
    dGet (process_payment pyHash ids pm amt cur cn em) "currency" = some (PyVal.str cur) ∧
    dGet (process_payment pyHash ids pm amt cur cn em) "booking_ids" =
      some (PyVal.strList ids) :=
  ⟨rfl, rfl, rfl, rfl, rfl, rfl, rfl, rfl, rfl, rfl⟩

/-- C8: for every clock reading, `current_time` returns the ISO-8601 rendering
of that naive UTC value — the zero-padded date, the separator `T`, the
zero-padded time — and, being a total function of the reading, it has no
failure mode: the result always starts with the date part and contains the
`T` separator. -/
theorem claim_c8_current_time_iso (t : PyDateTime) :
    current_time t = isoDate t ++ "T" ++ isoTime t ∧
    strStarts (current_time t) (isoDate t) = true ∧
    strContains (current_time t) "T" = true := by
  refine ⟨rfl, ?_, ?_⟩
  · show strStarts ((isoDate t ++ "T") ++ isoTime t) (isoDate t) = true
    rw [str_assoc]
    exact strStarts_of_append (isoDate t) ("T" ++ isoTime t)
  · exact strContains_sandwich (isoDate t) "T" (isoTime t)

/-- C9: passing `None` for an optional style parameter behaves exactly like
the default: `book_flight` with `class_type=None` returns the same record as
with `class_type="economy"`, `book_hotel` with `hotel_type=None` the same as
`"3-star"`, and `book_cab` with `cab_type=None` the same as `"standard"`. -/
theorem claim_c9_none_like_default (o dst dd ci co pl dl pt : String)
    (rd : Option String) (pc g ps : Int) :
    book_flight o dst dd rd pc Option.none =
      book_flight o dst dd rd pc (some "economy") ∧
    book_hotel ci dd co g Option.none = book_hotel ci dd co g (some "3-star") ∧
    book_cab ci pl dl pt ps Option.none = book_cab ci pl dl pt ps (some "standard") :=
  ⟨rfl, rfl, rfl⟩

/-- C10 counterexample: the claim's "only if" direction fails under substring
reading — here `return_date` is `None`, yet the summary contains
`"Return flight on Y. "` because the departure date the caller passed happens
to contain that text. -/
theorem claim_c10_counterexample :
    strContains (summaryOf (book_flight "NYC" "LAX" "X. Return flight on Y. "
      Option.none 1 (some "economy"))) "Return flight on Y. " = true ∧
    flightReturnPart Option.none = "" :=
  ⟨rfl, rfl⟩

/-- C10 amended: the summary has the sentence `"Return flight on <return_date>. "`
appended (between the fixed first sentence and the booking-id sentence) exactly
when `return_date` is provided and non-empty — so in that case the summary
contains the sentence as a substring; when `return_date` is `""` the whole
record equals the one for `return_date=None`, whose summary is just the first
sentence followed by the booking-id sentence; and the flight id is unaffected
by `return_date` in all cases.  (Substring containment alone is not an "only
if": other echoed inputs can smuggle such text into the summary.) -/
theorem claim_c10_amended_return_sentence (o dst dd : String) (pc : Int) (ct : String)
    (ctOpt : Option String) (r : String) (r1 r2 : Option String) :
    (r ≠ "" →
      flightSummary o dst dd (some r) pc ct =
        flightBase o dst dd pc ct ++ ("Return flight on " ++ r ++ ". ") ++
          flightFinal o dst ∧
      strContains (flightSummary o dst dd (some r) pc ct)
        ("Return flight on " ++ r ++ ". ") = true) ∧
    flightSummary o dst dd Option.none pc ct =
      flightBase o dst dd pc ct ++ flightFinal o dst ∧
    book_flight o dst dd (some "") pc ctOpt = book_flight o dst dd Option.none pc ctOpt ∧
    dGet (book_flight o dst dd r1 pc ctOpt) "flight_id" =
      dGet (book_flight o dst dd r2 pc ctOpt) "flight_id" := by
  refine ⟨fun hr => ?_, ?_, book_flight_return_congr rfl o dst dd pc ctOpt,
    (dGet_book_flight_id o dst dd r1 pc ctOpt).trans
      (dGet_book_flight_id o dst dd r2 pc ctOpt).symm⟩
  · have hb : (r != "") = true := by simpa using hr
    have he : flightSummary o dst dd (some r) pc ct =
        flightBase o dst dd pc ct ++ ("Return flight on " ++ r ++ ". ") ++
          flightFinal o dst := by
      simp [flightSummary, flightReturnPart, hb]
    exact ⟨he, by rw [he]; exact strContains_sandwich _ _ _⟩
  · show flightBase o dst dd pc ct ++ flightReturnPart Option.none ++ flightFinal o dst =
      flightBase o dst dd pc ct ++ flightFinal o dst
    show flightBase o dst dd pc ct ++ "" ++ flightFinal o dst =
      flightBase o dst dd pc ct ++ flightFinal o dst
    rw [str_append_empty]

/-- C10 amended, witnessed at a concrete call: a provided non-empty return
date makes the summary carry the return sentence. -/
theorem claim_c10_amended_witness :
    flightSummary "NYC" "LAX" "2025-06-01" (some "2025-06-10") 1 "economy" =
      flightBase "NYC" "LAX" "2025-06-01" 1 "economy" ++
        ("Return flight on " ++ "2025-06-10" ++ ". ") ++ flightFinal "NYC" "LAX" ∧
    strContains (flightSummary "NYC" "LAX" "2025-06-01" (some "2025-06-10") 1 "economy")
      ("Return flight on " ++ "2025-06-10" ++ ". ") = true :=
  (claim_c10_amended_return_sentence "NYC" "LAX" "2025-06-01" 1 "economy"
    Option.none "2025-06-10" Option.none Option.none).1 (by decide)

end SaudiaAgent
